import Mathlib

/-!
Verification of the client-side cache bootstrap / persistence layer and the
Contentful fetch transform of a small React front-end.

The embedding models the runtime (JavaScript) behaviour of the source:
TypeScript annotations are erased at runtime, and the transform in
`fetchProjects` reaches the remote data through a cast, so every field the
code accesses defensively (destructuring of possibly-absent properties,
optional chaining `?.`) is modelled as an `Option`.  JavaScript exceptions
are modelled with `Except`; the host primitives `JSON.parse` /
`JSON.stringify` are external collaborators and appear as function
parameters (`parse` returning `none` models a throwing `JSON.parse`).
-/

/-- The nested `file` object of a Contentful image: `file.url`.
Modelled with `Option` because the transform reads it through
optional chaining (`image?.fields?.file?.url`). -/
structure ContentfulFile where
  url : Option String
deriving DecidableEq, Repr

/-- The `fields` object of a Contentful image asset. -/
structure ContentfulImageFields where
  file : Option ContentfulFile
deriving DecidableEq, Repr

/-- A Contentful image asset as the transform sees it. -/
structure ContentfulImage where
  fields : Option ContentfulImageFields
deriving DecidableEq, Repr

/-- `ContentfulProjectFields` from the source: `title`, `url` and an
optional `image`.  At runtime a malformed remote entry can lack `title`
or `url` (the TypeScript type is only a cast), so both are `Option`. -/
structure ContentfulProjectFields where
  title : Option String
  url : Option String
  image : Option ContentfulImage
deriving DecidableEq, Repr

/-- The system-metadata section of a remote entry; the transform only
reads `sys.id`. -/
structure ContentfulProjectSys where
  id : String
deriving DecidableEq, Repr

/-- A remote entry (`response.items` element): `fields` plus `sys`. -/
structure RemoteEntry where
  sys : ContentfulProjectSys
  fields : ContentfulProjectFields
deriving DecidableEq, Repr

/-- The application-facing `Project` record `{ title, url, id, img }` as the
transform actually builds it at runtime: `title` and `url` are copied
verbatim from the entry fields (hence possibly absent), `img` is the result
of the optional chain. -/
structure Project where
  id : String
  title : Option String
  url : Option String
  img : Option String
deriving DecidableEq, Repr

/-- The body of the map callback in `fetchProjects`:
`const { title, url, image } = fields; const id = item.sys.id;
const img = image?.fields?.file?.url; return { title, url, id, img }`.
The optional chain is a chain of `Option.bind`. -/
def mapEntry (item : RemoteEntry) : Project :=
  let title := item.fields.title
  let url := item.fields.url
  let id := item.sys.id
  let img := ((item.fields.image.bind (·.fields)).bind (·.file)).bind (·.url)
  { id := id, title := title, url := url, img := img }

/-- The transform in `fetchProjects`: `response.items.map (item => ...)`. -/
def mapProjects (items : List RemoteEntry) : List Project :=
  items.map mapEntry

/-- The durable-storage collaborator restricted to the two keys the
bootstrap code touches: `data` is the value under `CACHE_KEY`
("REACT_QUERY_CACHE"), `ts` the value under `CACHE_TIMESTAMP_KEY`
("REACT_QUERY_CACHE_TIMESTAMP"); `none` models an absent key
(`localStorage.getItem` returning `null`). -/
structure Storage where
  data : Option String
  ts : Option String
deriving DecidableEq, Repr

/-- `CACHE_DURATION = 1000 * 60 * 5` from the source (milliseconds). -/
def CACHE_DURATION : Int := 1000 * 60 * 5

/-- The `defaultOptions.queries` record passed to the `QueryClient`
constructor in the source. -/
structure QueryDefaults where
  staleTime : Int
  gcTime : Int
  refetchOnWindowFocus : Bool
  refetchOnMount : Bool
  refetchOnReconnect : Bool
  retry : Nat
deriving DecidableEq, Repr

/-- The concrete query defaults of the source's `queryClient`. -/
def queryClientDefaults : QueryDefaults :=
  { staleTime := 1000 * 60 * 5
    gcTime := 1000 * 60 * 10
    refetchOnWindowFocus := false
    refetchOnMount := false
    refetchOnReconnect := true
    retry := 1 }

/-- JavaScript truthiness of a `localStorage.getItem` result: `null` and
the empty string are falsy, every other string is truthy. -/
def truthy : Option String → Bool
  | none => false
  | some s => decide (s ≠ "")

/-- Whether a JavaScript exception value is an ordinary result (used to
state that a callback never propagates an exception). -/
def exceptOk {ε α : Type} : Except ε α → Bool
  | .ok _ => true
  | .error _ => false

/-- Digit-prefix step of `parseInt(s, 10)`: consume the longest decimal
digit prefix; `none` models the `NaN` result when no digit is present. -/
def jsParseIntDigits (sign : Int) (cs : List Char) : Option Int :=
  let ds := cs.takeWhile Char.isDigit
  if ds.isEmpty then none
  else some (sign * (ds.foldl (fun n c => n * 10 + (c.toNat - '0'.toNat)) 0 : Nat))

/-- JavaScript `parseInt(s, 10)`: skip leading whitespace, read an optional
sign, then the decimal digit prefix; `NaN` (here `none`) when no digit
follows. -/
def jsParseInt (s : String) : Option Int :=
  match s.toList.dropWhile Char.isWhitespace with
  | '-' :: rest => jsParseIntDigits (-1) rest
  | '+' :: rest => jsParseIntDigits 1 rest
  | cs => jsParseIntDigits 1 cs

/-- The freshness test `now - timestamp < CACHE_DURATION` of the hydration
block, under JavaScript numeric semantics: when `timestamp` is `NaN`
(modelled `none`), the comparison evaluates to `false`. -/
def freshAtHydration (now : Int) (timestamp : Option Int) : Bool :=
  match timestamp with
  | none => false
  | some t => now - t < CACHE_DURATION

/-- The body of the hydration `try` block in `main.tsx` (lines 84-102),
for a given durable-storage state.  `parse` stands for the host primitive
`JSON.parse`; `parse s = none` models `JSON.parse(s)` throwing, which makes
the body throw (`Except.error`).  The result pairs the post-storage state
with the value seeded into the in-memory query cache under `["projects"]`
(`none` = nothing seeded). -/
def hydrateBody {α : Type} (parse : String → Option α) (now : Int)
    (st : Storage) : Except Unit (Storage × Option α) :=
  if truthy st.data && truthy st.ts then
    let timestamp := jsParseInt (st.ts.getD "")
    if freshAtHydration now timestamp then
      match parse (st.data.getD "") with
      | some parsedCache => .ok (st, some parsedCache)
      | none => .error ()
    else
      .ok ({ data := none, ts := none }, none)
  else
    .ok (st, none)

/-- The whole hydration block including its `catch` handler: a thrown body
is answered by `console.warn` plus removal of both keys, and nothing is
seeded.  Total by construction — hydration never throws. -/
def hydrate {α : Type} (parse : String → Option α) (now : Int)
    (st : Storage) : Storage × Option α :=
  match hydrateBody parse now st with
  | .ok r => r
  | .error _ => ({ data := none, ts := none }, none)

/-- A query-cache event as the persistence subscription reads it:
`event.query.queryKey` (an array, accessed at index 0) and
`event.query.state.data` (`none` models `undefined`: no data yet;
note a present empty array is truthy in JavaScript). -/
structure CacheEvent where
  queryKey : List String
  data : Option (List Project)
deriving DecidableEq, Repr

/-- The `try` block of the subscription callback: two `setItem` calls.
`serialize` stands for `JSON.stringify`; `w1` / `w2` say whether the first
and second `localStorage.setItem` succeed (a failing `JSON.stringify` is
subsumed by `w1 = false`, since it aborts the first statement).  A thrown
write yields `Except.error` carrying the storage as left behind by the
statements already executed. -/
def persistTry (serialize : List Project → String) (now : Int)
    (w1 w2 : Bool) (ev : CacheEvent) (st : Storage) :
    Except Storage Storage :=
  if w1 then
    let st1 := { st with data := some (serialize (ev.data.getD [])) }
    if w2 then .ok { st1 with ts := some (toString now) }
    else .error st1
  else .error st

/-- The full subscription callback of `main.tsx` (lines 112-124): the guard
`event?.query?.queryKey?.[0] === "projects" && event.query.state.data`
followed by the `try`/`catch` whose handler only logs a warning.  The
callback itself never throws: its result is always `Except.ok`. -/
def subscriberCallback (serialize : List Project → String) (now : Int)
    (w1 w2 : Bool) (ev : CacheEvent) (st : Storage) :
    Except Unit Storage :=
  if (ev.queryKey.head? == some "projects") && ev.data.isSome then
    match persistTry serialize now w1 w2 ev st with
    | .ok st1 => .ok st1
    | .error stPartial => .ok stPartial
  else
    .ok st

/-- The storage effect of one cache event when the durable writes succeed
(the normal persistence path). -/
def persistEvent (serialize : List Project → String) (now : Int)
    (ev : CacheEvent) (st : Storage) : Storage :=
  match subscriberCallback serialize now true true ev st with
  | .ok st1 => st1
  | .error _ => st

/-- The query state `useQuery` hands back for the `["projects"]` key:
`data` (possibly `undefined`) and `isPending`. -/
structure QueryState where
  data : Option (List Project)
  isPending : Bool
deriving DecidableEq, Repr

/-- `UseFetchProjectsReturn` from the source's types:
`{ loading, projects }`. -/
structure UseFetchProjectsReturn where
  loading : Bool
  projects : List Project
deriving DecidableEq, Repr

/-- The facade `useFetchProjects`:
`const { data: projects = [], isPending: loading } = useQuery(...);
return { loading, projects }` — a missing `data` defaults to the empty
list, and no error is ever surfaced to the caller. -/
def useFetchProjects (s : QueryState) : UseFetchProjectsReturn :=
  { loading := s.isPending, projects := s.data.getD [] }

/-- Modelled from the spec: the retry loop of the fetch-and-cache utility
(the library internals are not part of this repository).  `attempt k` is
the outcome of the k-th remote attempt; a fetch cycle with retry budget
`retry` makes at most `retry + 1` attempts, stopping at the first success.
Returns the result and the number of attempts made. -/
def retryGo {α : Type} (attempt : Nat → Option α) :
    Nat → Nat → Option α × Nat
  | 0, k => (none, k)
  | n + 1, k =>
    match attempt k with
    | some v => (some v, k + 1)
    | none => retryGo attempt n (k + 1)

/-- Modelled from the spec: one request cycle of the fetch utility with a
given retry budget — the initial attempt plus up to `retry` retries. -/
def fetchWithRetry {α : Type} (retry : Nat) (attempt : Nat → Option α) :
    Option α × Nat :=
  retryGo attempt (retry + 1) 0

/-- Claim C6: the transform is one-to-one and order-preserving — the output
has the same length as the input and the i-th output Project is derived from
the i-th input RemoteEntry, with nothing dropped, duplicated or re-sorted. -/
theorem mapProjects_order_preserving (items : List RemoteEntry) :
    (mapProjects items).length = items.length ∧
    ∀ i : Nat, (mapProjects items)[i]? = items[i]?.map mapEntry := by
  refine ⟨?_, ?_⟩
  · simp [mapProjects]
  · intro i
    simp [mapProjects, List.getElem?_map]

/-- Claim C5: an entry whose optional `image` field is absent yields a
Project with no image, while `id`, `title` and `url` are taken verbatim. -/
theorem mapEntry_missing_image (e : RemoteEntry)
    (h : e.fields.image = none) :
    mapEntry e =
      { id := e.sys.id, title := e.fields.title, url := e.fields.url,
        img := none } := by
  simp [mapEntry, h]

/-- Witness for `mapEntry_missing_image` at a concrete entry. -/
theorem mapEntry_missing_image_witness :
    mapEntry
        { sys := { id := "a1" },
          fields := { title := some "T", url := some "https://x",
                      image := none } } =
      { id := "a1", title := some "T", url := some "https://x",
        img := none } :=
  mapEntry_missing_image
    { sys := { id := "a1" },
      fields := { title := some "T", url := some "https://x",
                  image := none } } rfl

/-- Claim C1, counterexample: in a batch of three entries where entry #2
lacks `title`, the transform keeps all three entries and throws nothing, but
the second Project's `title` is absent (`undefined` at runtime), not the
empty string the claim asserts. -/
theorem mapProjects_missing_title_counterexample :
    let batch : List RemoteEntry :=
      [ { sys := { id := "a" },
          fields := { title := some "A", url := some "ua", image := none } },
        { sys := { id := "b" },
          fields := { title := none, url := some "ub", image := none } },
        { sys := { id := "c" },
          fields := { title := some "C", url := some "uc", image := none } } ]
    (mapProjects batch).length = 3 ∧
    (mapProjects batch)[1]? =
      some { id := "b", title := none, url := some "ub", img := none } ∧
    ((mapProjects batch)[1]?.map Project.title) ≠ some (some "") := by
  refine ⟨rfl, rfl, by decide⟩

/-- Claim C1 (amended): for every batch and every index holding an entry,
the transform returns a list of the same length whose Project at that index
carries the entry's `title` and `url` verbatim — a missing `title` or `url`
is passed through as absent (`undefined`), not as an empty string; the entry
is not dropped and no exception is thrown. -/
theorem mapProjects_missing_field_passthrough (items : List RemoteEntry)
    (i : Nat) (e : RemoteEntry) (he : items[i]? = some e) :
    (mapProjects items).length = items.length ∧
    (mapProjects items)[i]? =
      some { id := e.sys.id, title := e.fields.title, url := e.fields.url,
             img := ((e.fields.image.bind (·.fields)).bind (·.file)).bind
                      (·.url) } := by
  refine ⟨by simp [mapProjects], ?_⟩
  simp [mapProjects, List.getElem?_map, he, mapEntry]

/-- Witness for `mapProjects_missing_field_passthrough`: a concrete batch of
three entries whose second entry lacks `title`. -/
theorem mapProjects_missing_field_passthrough_witness :
    (mapProjects
        [ { sys := { id := "a" },
            fields := { title := some "A", url := some "ua", image := none } },
          { sys := { id := "b" },
            fields := { title := none, url := some "ub", image := none } },
          { sys := { id := "c" },
            fields := { title := some "C", url := some "uc",
                        image := none } } ]).length = 3 ∧
    (mapProjects
        [ { sys := { id := "a" },
            fields := { title := some "A", url := some "ua", image := none } },
          { sys := { id := "b" },
            fields := { title := none, url := some "ub", image := none } },
          { sys := { id := "c" },
            fields := { title := some "C", url := some "uc",
                        image := none } } ])[1]? =
      some { id := "b", title := none, url := some "ub", img := none } :=
  mapProjects_missing_field_passthrough
    [ { sys := { id := "a" },
        fields := { title := some "A", url := some "ua", image := none } },
      { sys := { id := "b" },
        fields := { title := none, url := some "ub", image := none } },
      { sys := { id := "c" },
        fields := { title := some "C", url := some "uc", image := none } } ]
    1
    { sys := { id := "b" },
      fields := { title := none, url := some "ub", image := none } }
    rfl

/-- Claim C4: the TTL constant `CACHE_DURATION` used by hydration equals
the `staleTime` default of the query client, both 5 minutes in
milliseconds. -/
theorem cache_duration_eq_staleTime :
    CACHE_DURATION = queryClientDefaults.staleTime ∧
    CACHE_DURATION = 1000 * 60 * 5 :=
  ⟨rfl, rfl⟩

/-- Claim C2: for a stored record whose data blob parses and whose
timestamp string parses to an integer `t`, hydration seeds the in-memory
cache with the parsed data exactly when `now - t < CACHE_DURATION`; at or
past the TTL it instead deletes both durable keys and seeds nothing. -/
theorem hydrate_fresh_iff {α : Type} (parse : String → Option α)
    (now : Int) (st : Storage) (ds tss : String) (d : α) (t : Int)
    (hd : st.data = some ds) (hdne : ds ≠ "")
    (hts : st.ts = some tss)
    (hparse : parse ds = some d) (ht : jsParseInt tss = some t) :
    (now - t < CACHE_DURATION → hydrate parse now st = (st, some d)) ∧
    (CACHE_DURATION ≤ now - t →
      hydrate parse now st = ({ data := none, ts := none }, none)) := by
  have htne : tss ≠ "" := by
    intro h
    rw [h, show jsParseInt "" = none from rfl] at ht
    exact Option.noConfusion ht
  constructor
  · intro hfresh
    simp [hydrate, hydrateBody, hd, hts, truthy, hdne, htne, ht,
      freshAtHydration, hfresh, hparse]
  · intro hstale
    simp [hydrate, hydrateBody, hd, hts, truthy, hdne, htne, ht,
      freshAtHydration, not_lt.mpr hstale]

/-- Witness for `hydrate_fresh_iff`: a fresh record is seeded unchanged. -/
theorem hydrate_fresh_iff_witness :
    hydrate (fun s => if s = "[]" then some ([] : List Project) else none) 1
        { data := some "[]", ts := some "0" } =
      ({ data := some "[]", ts := some "0" }, some []) := by
  have h := hydrate_fresh_iff
      (fun s => if s = "[]" then some ([] : List Project) else none) 1
      { data := some "[]", ts := some "0" } "[]" "0" ([] : List Project) 0
      rfl (by decide) rfl (by simp) (by decide)
  exact h.1 (by decide)

/-- Claim C3, counterexample: the stored data value `""` fails to parse
(`JSON.parse("")` throws), yet hydration leaves both keys in place instead
of deleting them — the empty string is falsy, so the hydration block treats
the record as absent. -/
theorem hydrate_corrupted_counterexample :
    hydrate (fun _ : String => (none : Option (List Project))) 0
        { data := some "", ts := some "123" } =
      ({ data := some "", ts := some "123" }, none) ∧
    ({ data := some "", ts := some "123" } : Storage) ≠
      { data := none, ts := none } := by
  exact ⟨rfl, by decide⟩

/-- Claim C3 (amended): hydration never throws for any durable-storage
state, and whenever both stored strings are non-empty (truthy) and the data
value fails to parse, hydration deletes both keys and seeds nothing; a
record with an empty-string component is instead treated as absent and left
in place. -/
theorem hydrate_corrupted_amended {α : Type} (parse : String → Option α)
    (now : Int) (st : Storage) (ds tss : String)
    (hd : st.data = some ds) (hdne : ds ≠ "")
    (hts : st.ts = some tss) (htne : tss ≠ "")
    (hparse : parse ds = none) :
    hydrate parse now st = ({ data := none, ts := none }, none) := by
  cases hfresh : freshAtHydration now (jsParseInt tss) <;>
    simp [hydrate, hydrateBody, hd, hts, truthy, hdne, htne, hparse, hfresh]

/-- Witness for `hydrate_corrupted_amended`: a truthy unparsable record is
deleted. -/
theorem hydrate_corrupted_amended_witness :
    hydrate (fun _ : String => (none : Option (List Project))) 5
        { data := some "garbage", ts := some "3" } =
      ({ data := none, ts := none }, none) :=
  hydrate_corrupted_amended (fun _ => none) 5
    { data := some "garbage", ts := some "3" } "garbage" "3"
    rfl (by decide) rfl (by decide) rfl

/-- Claim C10, counterexample: with both keys present but the timestamp
equal to `""` (for which `parseInt` yields `NaN`), hydration seeds nothing
but does NOT run the stale branch — the empty string is falsy, so both keys
survive, contradicting the claimed deletion. -/
theorem hydrate_nan_timestamp_counterexample :
    jsParseInt "" = none ∧
    hydrate (fun _ : String => (none : Option (List Project))) 0
        { data := some "x", ts := some "" } =
      ({ data := some "x", ts := some "" }, none) ∧
    ({ data := some "x", ts := some "" } : Storage) ≠
      { data := none, ts := none } := by
  refine ⟨rfl, rfl, by decide⟩

/-- Claim C10 (amended): when both stored strings are non-empty (truthy)
and the timestamp does not parse as an integer (`parseInt` yields `NaN`),
the freshness comparison is false, so the stale branch deletes both keys
and nothing is seeded and nothing is thrown. -/
theorem hydrate_nan_timestamp_amended {α : Type} (parse : String → Option α)
    (now : Int) (st : Storage) (ds tss : String)
    (hd : st.data = some ds) (hdne : ds ≠ "")
    (hts : st.ts = some tss) (htne : tss ≠ "")
    (hnan : jsParseInt tss = none) :
    hydrate parse now st = ({ data := none, ts := none }, none) := by
  simp [hydrate, hydrateBody, hd, hts, truthy, hdne, htne, hnan,
    freshAtHydration]

/-- Witness for `hydrate_nan_timestamp_amended` at a concrete state. -/
theorem hydrate_nan_timestamp_amended_witness :
    hydrate (fun s => if s = "[]" then some ([] : List Project) else none) 7
        { data := some "[]", ts := some "abc" } =
      ({ data := none, ts := none }, none) :=
  hydrate_nan_timestamp_amended
    (fun s => if s = "[]" then some ([] : List Project) else none) 7
    { data := some "[]", ts := some "abc" } "[]" "abc"
    rfl (by decide) rfl (by decide) (by decide)

/-- Claim C7, counterexample: an event for key "projects" whose result data
is the EMPTY list still writes both durable keys — an empty array is truthy
in JavaScript, so "non-empty result data" is not what the guard tests. -/
theorem persist_empty_data_counterexample :
    persistEvent (fun _ => "[]") 0
        { queryKey := ["projects"], data := some [] }
        { data := none, ts := none } =
      { data := some "[]", ts := some "0" } ∧
    ({ data := some "[]", ts := some "0" } : Storage) ≠
      { data := none, ts := none } := by
  refine ⟨rfl, by decide⟩

/-- Claim C7 (amended): the subscription writes the serialized data and the
timestamp exactly when the event's query key starts with "projects" and
result data is present — including a present empty list; for any other key
or absent data, durable storage is left unchanged. -/
theorem persist_writes_iff (serialize : List Project → String) (now : Int)
    (ev : CacheEvent) (st : Storage) :
    persistEvent serialize now ev st =
      if (ev.queryKey.head? == some "projects") && ev.data.isSome then
        { data := some (serialize (ev.data.getD [])),
          ts := some (toString now) }
      else st := by
  cases hcond : (ev.queryKey.head? == some "projects") && ev.data.isSome <;>
    simp [persistEvent, subscriberCallback, persistTry, hcond]

/-- Claim C8: the persistence callback never propagates an exception —
whatever the outcome of either durable write (`w1`, `w2`), including a
failing serialization, the callback returns normally, so a completed
in-memory fetch is never turned into a failure by persistence. -/
theorem subscriber_never_throws (serialize : List Project → String)
    (now : Int) (w1 w2 : Bool) (ev : CacheEvent) (st : Storage) :
    exceptOk (subscriberCallback serialize now w1 w2 ev st) = true := by
  unfold subscriberCallback persistTry
  cases w1 <;> cases w2 <;> split <;> simp [exceptOk]

/-- Claim C9: the query configuration retries a failed fetch exactly once —
`retry = 1`, so a cycle in which every attempt fails makes exactly 2
attempts (the original plus one retry) and yields no new data — and the
facade then resolves with the last known (possibly empty) data rather than
raising an exception. -/
theorem retry_once_then_last_known {α : Type} (attempt : Nat → Option α)
    (hfail : ∀ k, attempt k = none) (s : QueryState)
    (hs : s.isPending = false) :
    queryClientDefaults.retry = 1 ∧
    fetchWithRetry queryClientDefaults.retry attempt = (none, 2) ∧
    useFetchProjects s =
      { loading := false, projects := s.data.getD [] } := by
  refine ⟨rfl, ?_, ?_⟩
  · simp [fetchWithRetry, retryGo, hfail, queryClientDefaults]
  · simp [useFetchProjects, hs]

/-- Witness for `retry_once_then_last_known`: an always-failing fetch makes
two attempts and the facade returns the empty list. -/
theorem retry_once_then_last_known_witness :
    queryClientDefaults.retry = 1 ∧
    fetchWithRetry queryClientDefaults.retry
        (fun _ => (none : Option (List Project))) = (none, 2) ∧
    useFetchProjects { data := none, isPending := false } =
      { loading := false, projects := [] } :=
  retry_once_then_last_known (fun _ => (none : Option (List Project)))
    (fun _ => rfl) { data := none, isPending := false } rfl
